import Mathlib

/-!
Shallow embedding of the gophertest/build command-line tool invoker.

The repository translates typed argument records into command-line token
sequences for the Go toolchain's low-level tools (asm, compile, link, pack,
buildid), builds an environment overlay, memoizes the toolchain version
string, and scans the toolchain driver's environment report.

The embedding models the pure parts of each operation: the token
serialization performed before `exec.Command` (the per-call IO writer
sinks, working directory and actual process spawn are outside the token
sequence and are represented by the functions' outputs), the environment
overlay computed by `cmdTools.env`, the memoization step of
`cmdTools.Version` as explicit state passing over the memo field, and the
line scanner of `cmdTools.BuildCtx` including the semantics of the
`([a-zA-Z0-9_]+)="(.*)"` regular expression.
-/

set_option maxRecDepth 4000

/-- Build context: the subset of `go/build.Context` the code reads
(GOOS, GOARCH, GOPATH, GOROOT, CgoEnabled). -/
structure Context where
  GOOS : String := ""
  GOARCH : String := ""
  GOPATH : String := ""
  GOROOT : String := ""
  CgoEnabled : Bool := false
deriving Repr, DecidableEq

/-- Arguments of `cmdTools.Assemble` that enter the token sequence.
Field defaults are Go zero values. -/
structure AssembleArgs where
  Files : List String := []
  TrimPath : String := ""
  OutputFile : String := ""
  IncludeDirs : List String := []
  Defines : List String := []
  GenSymABIs : Bool := false
  Shared : Bool := false
  DynamicLink : Bool := false
deriving Repr, DecidableEq

/-- Arguments of `cmdTools.Compile` that enter the token sequence.
Field defaults are Go zero values. -/
structure CompileArgs where
  Files : List String := []
  TrimPath : String := ""
  OutputFile : String := ""
  BuildID : String := ""
  DisableBoundsChecking : Bool := false
  CompilingRuntimeLibrary : Bool := false
  DisableOptimizations : Bool := false
  RelativeImportPath : String := ""
  IncludeDirs : List String := []
  Concurrency : Int := 0
  AsmHeaderFile : String := ""
  Complete : Bool := false
  DynamicLink : Bool := false
  GoVersion : String := ""
  HaltOnError : Bool := false
  ImportConfigFile : String := ""
  ImportMap : List String := []
  InstallSuffix : String := ""
  DisableInlining : Bool := false
  LinkObjectOutputFile : String := ""
  MSan : Bool := false
  NoLocalImports : Bool := false
  PackageImportPath : String := ""
  Pack : Bool := false
  Race : Bool := false
  Shared : Bool := false
  SmallFrames : Bool := false
  CompilingStandardLibrary : Bool := false
  SymABIsFile : String := ""
deriving Repr, DecidableEq

/-- Arguments of `cmdTools.Link` that enter the token sequence.
Field defaults are Go zero values. -/
structure LinkArgs where
  Files : List String := []
  EntrySymbolName : String := ""
  HeaderType : String := ""
  ELFDynamicLinker : String := ""
  LibraryPaths : List String := []
  StringDefines : List String := []
  BuildID : String := ""
  BuildMode : String := ""
  ExternalTar : String := ""
  ExternalLinker : String := ""
  ExternalLinkerFlags : String := ""
  IgnoreVersionMismatch : Bool := false
  DisableGoPackageDataChecks : Bool := false
  HaltOnError : Bool := false
  ImportConfigFile : String := ""
  InstallSuffix : String := ""
  FieldTrackingSymbol : String := ""
  LibGCC : String := ""
  LinkMode : String := ""
  LinkShared : Bool := false
  MSan : Bool := false
  OutputFile : String := ""
  PluginPath : String := ""
  Race : Bool := false
  TempDir : String := ""
  RejectUnsafePackages : Bool := false
deriving Repr, DecidableEq

/-- PackOp is the operation to perform on the object file; in Go it is a
defined integer type whose constants come from an iota block starting after
a blank first slot, so AppendNew = 1 through Extract = 5. -/
abbrev PackOp := Int

namespace PackOp

/-- AppendNew passes the operation "c". -/
def AppendNew : PackOp := 1

/-- Print passes the operation "p". -/
def Print : PackOp := 2

/-- Append passes the operation "r". -/
def Append : PackOp := 3

/-- List passes the operation "t". -/
def List : PackOp := 4

/-- Extract passes the operation "x". -/
def Extract : PackOp := 5

end PackOp

/-- Arguments of `cmdTools.Pack` that enter the token sequence. -/
structure PackArgs where
  Op : PackOp := 0
  ObjectFile : String := ""
  Names : List String := []
deriving Repr, DecidableEq

/-- Arguments of `cmdTools.BuildID` that enter the token sequence. -/
structure BuildIDArgs where
  ObjectFile : String := ""
  Write : Bool := false
deriving Repr, DecidableEq

/-- One `-flag value` pair per list element, preserving input order: the
embedding of the Go loops `for _, v := range xs { cmdArgs = append(cmdArgs,
flag, v) }`. -/
def repFlag (flag : String) : List String → List String
  | [] => []
  | v :: rest => flag :: v :: repFlag flag rest

/-- Token sequence built by `cmdTools.Assemble` before `exec.Command`:
the configured fixed leading arguments, then each field's flag tokens in
declaration order, then the positional files. -/
def assembleCmdArgs (assemblerArgs : List String) (args : AssembleArgs) : List String :=
  assemblerArgs
  ++ (if args.TrimPath ≠ "" then ["-trimpath", args.TrimPath] else [])
  ++ (if args.OutputFile ≠ "" then ["-o", args.OutputFile] else [])
  ++ repFlag "-I" args.IncludeDirs
  ++ repFlag "-D" args.Defines
  ++ (if args.GenSymABIs then ["-gensymabis"] else [])
  ++ (if args.Shared then ["-shared"] else [])
  ++ (if args.DynamicLink then ["-dynlink"] else [])
  ++ args.Files

/-- Token sequence built by `cmdTools.Compile` before `exec.Command`.
The Concurrency integer is rendered with `strconv.Itoa`, modeled by
`toString` on `Int`. -/
def compileCmdArgs (compilerArgs : List String) (args : CompileArgs) : List String :=
  compilerArgs
  ++ (if args.TrimPath ≠ "" then ["-trimpath", args.TrimPath] else [])
  ++ (if args.OutputFile ≠ "" then ["-o", args.OutputFile] else [])
  ++ (if args.BuildID ≠ "" then ["-buildid", args.BuildID] else [])
  ++ (if args.DisableBoundsChecking then ["-B"] else [])
  ++ (if args.CompilingRuntimeLibrary then ["-+"] else [])
  ++ (if args.DisableOptimizations then ["-N"] else [])
  ++ (if args.RelativeImportPath ≠ "" then ["-D", args.RelativeImportPath] else [])
  ++ repFlag "-I" args.IncludeDirs
  ++ (if args.Concurrency ≠ 0 then ["-D", toString args.Concurrency] else [])
  ++ (if args.AsmHeaderFile ≠ "" then ["-asmhdr", args.AsmHeaderFile] else [])
  ++ (if args.Complete then ["-complete"] else [])
  ++ (if args.DynamicLink then ["-dynlink"] else [])
  ++ (if args.GoVersion ≠ "" then ["-goversion", args.GoVersion] else [])
  ++ (if args.HaltOnError then ["-h"] else [])
  ++ (if args.ImportConfigFile ≠ "" then ["-importcfg", args.ImportConfigFile] else [])
  ++ repFlag "-importmap" args.ImportMap
  ++ (if args.InstallSuffix ≠ "" then ["-installsuffix", args.InstallSuffix] else [])
  ++ (if args.DisableInlining then ["-l"] else [])
  ++ (if args.LinkObjectOutputFile ≠ "" then ["-linkobj", args.LinkObjectOutputFile] else [])
  ++ (if args.MSan then ["-msan"] else [])
  ++ (if args.NoLocalImports then ["-nolocalimports"] else [])
  ++ (if args.PackageImportPath ≠ "" then ["-p", args.PackageImportPath] else [])
  ++ (if args.Pack then ["-pack"] else [])
  ++ (if args.Race then ["-race"] else [])
  ++ (if args.Shared then ["-shared"] else [])
  ++ (if args.SmallFrames then ["-smallframes"] else [])
  ++ (if args.CompilingStandardLibrary then ["-std"] else [])
  ++ (if args.SymABIsFile ≠ "" then ["-symabis", args.SymABIsFile] else [])
  ++ args.Files

/-- Token sequence built by `cmdTools.Link` before `exec.Command`. -/
def linkCmdArgs (linkerArgs : List String) (args : LinkArgs) : List String :=
  linkerArgs
  ++ (if args.EntrySymbolName ≠ "" then ["-E", args.EntrySymbolName] else [])
  ++ (if args.HeaderType ≠ "" then ["-H", args.HeaderType] else [])
  ++ (if args.ELFDynamicLinker ≠ "" then ["-I", args.ELFDynamicLinker] else [])
  ++ repFlag "-L" args.LibraryPaths
  ++ repFlag "-X" args.StringDefines
  ++ (if args.BuildID ≠ "" then ["-buildid", args.BuildID] else [])
  ++ (if args.BuildMode ≠ "" then ["-buildmode", args.BuildMode] else [])
  ++ (if args.ExternalTar ≠ "" then ["-extar", args.ExternalTar] else [])
  ++ (if args.ExternalLinker ≠ "" then ["-extld", args.ExternalLinker] else [])
  ++ (if args.ExternalLinkerFlags ≠ "" then ["-extldflags", args.ExternalLinkerFlags] else [])
  ++ (if args.IgnoreVersionMismatch then ["-f"] else [])
  ++ (if args.DisableGoPackageDataChecks then ["-g"] else [])
  ++ (if args.HaltOnError then ["-h"] else [])
  ++ (if args.ImportConfigFile ≠ "" then ["-importcfg", args.ImportConfigFile] else [])
  ++ (if args.InstallSuffix ≠ "" then ["-installsuffix", args.InstallSuffix] else [])
  ++ (if args.FieldTrackingSymbol ≠ "" then ["-k", args.FieldTrackingSymbol] else [])
  ++ (if args.LibGCC ≠ "" then ["-libgcc", args.LibGCC] else [])
  ++ (if args.LinkMode ≠ "" then ["-linkmode", args.LinkMode] else [])
  ++ (if args.LinkShared then ["-linkshared"] else [])
  ++ (if args.MSan then ["-msan"] else [])
  ++ (if args.OutputFile ≠ "" then ["-o", args.OutputFile] else [])
  ++ (if args.PluginPath ≠ "" then ["-pluginpath", args.PluginPath] else [])
  ++ (if args.Race then ["-race"] else [])
  ++ (if args.TempDir ≠ "" then ["-tmpdir", args.TempDir] else [])
  ++ (if args.RejectUnsafePackages then ["-u"] else [])
  ++ args.Files

/-- Token sequence built by `cmdTools.Pack`, or the error its switch
returns on an unknown operation before any subprocess is spawned. The Go
error text comes from `fmt.Errorf("unknown pack operation %#v", args.Op)`,
which renders the integer operation value in decimal. -/
def packCmdArgs (packerArgs : List String) (args : PackArgs) : Except String (List String) :=
  if args.Op = PackOp.AppendNew then
    Except.ok (packerArgs ++ ["c", args.ObjectFile] ++ args.Names)
  else if args.Op = PackOp.Print then
    Except.ok (packerArgs ++ ["p", args.ObjectFile] ++ args.Names)
  else if args.Op = PackOp.Append then
    Except.ok (packerArgs ++ ["r", args.ObjectFile] ++ args.Names)
  else if args.Op = PackOp.List then
    Except.ok (packerArgs ++ ["t", args.ObjectFile] ++ args.Names)
  else if args.Op = PackOp.Extract then
    Except.ok (packerArgs ++ ["x", args.ObjectFile] ++ args.Names)
  else
    Except.error ("unknown pack operation " ++ toString args.Op)

/-- Token sequence built by `cmdTools.BuildID` before `exec.Command`:
the optional `-w` flag, then the object file appended unconditionally. -/
def buildIDCmdArgs (buildIDerArgs : List String) (args : BuildIDArgs) : List String :=
  buildIDerArgs
  ++ (if args.Write then ["-w"] else [])
  ++ [args.ObjectFile]

/-- Model of `strings.HasPrefix`: the first string begins with the
second. -/
def goHasPfx (s p : String) : Bool :=
  p.toList.isPrefixOf s.toList

/-- True on the environment entries `cmdTools.env` drops: the Go switch
skips every entry beginning with one of the five strings GOARCH, GOOS,
GOROOT, GOPATH, CGO_ENABLED (`strings.HasPrefix` on the whole
`NAME=value` string). -/
def stripsCtxVar (v : String) : Bool :=
  goHasPfx v "GOARCH" || goHasPfx v "GOOS" || goHasPfx v "GOROOT"
    || goHasPfx v "GOPATH" || goHasPfx v "CGO_ENABLED"

/-- The filtering loop of `cmdTools.env` over the inherited environment. -/
def envLoop : List String → List String
  | [] => []
  | v :: rest => if stripsCtxVar v then envLoop rest else v :: envLoop rest

/-- The environment overlay of `cmdTools.env`: the filtered inherited
environment followed by the five build-context assignments, CGO_ENABLED
rendered as "1" or "0". -/
def envFor (buildCtx : Context) (cur : List String) : List String :=
  envLoop cur
  ++ ["GOARCH=" ++ buildCtx.GOARCH, "GOOS=" ++ buildCtx.GOOS,
      "GOROOT=" ++ buildCtx.GOROOT, "GOPATH=" ++ buildCtx.GOPATH]
  ++ [if buildCtx.CgoEnabled then "CGO_ENABLED=1" else "CGO_ENABLED=0"]

/-- Model of `strings.TrimSpace`: drop whitespace characters from both
ends of the string. -/
def trimSpace (s : String) : String :=
  String.mk (((s.toList.dropWhile Char.isWhitespace).reverse.dropWhile Char.isWhitespace).reverse)

/-- Outcome the `go version` subprocess would have if spawned: an abstract
error token (none on success), its standard output and standard error. -/
structure ExecOutcome where
  err : Option String := none
  stdout : String := ""
  stderr : String := ""
deriving Repr, DecidableEq

/-- Observable result of one `cmdTools.Version` call: the returned value
or error, the memo field after the call, whether a subprocess was spawned,
and what was copied to the invoking process's standard error. -/
structure VersionResult where
  ret : Except String String
  version : String
  spawned : Bool
  stderrForwarded : String
deriving Repr

/-- One `cmdTools.Version` call as a function of the memo field
`ct.version` and the outcome the subprocess would have: a non-empty memo
is returned without spawning; otherwise the process runs, a failure
forwards stderr and returns the error with the memo unchanged, and a
success stores and returns the trimmed standard output. The mutex
serializes calls, so successive calls compose sequentially. -/
def versionCall (version : String) (o : ExecOutcome) : VersionResult :=
  if version ≠ "" then
    ⟨Except.ok version, version, false, ""⟩
  else
    match o.err with
    | some e => ⟨Except.error e, version, true, o.stderr⟩
    | none => ⟨Except.ok (trimSpace o.stdout), trimSpace o.stdout, true, ""⟩

/-- Character class of the key group in the Go regular expression
`([a-zA-Z0-9_]+)="(.*)"` used by `cmdTools.BuildCtx`. -/
def isWordChar (c : Char) : Bool :=
  (('a' ≤ c ∧ c ≤ 'z') ∨ ('A' ≤ c ∧ c ≤ 'Z') ∨ ('0' ≤ c ∧ c ≤ '9') ∨ c = '_' : Prop)

/-- Content before the last double quote of the character list, or none
when no double quote occurs: the greedy `(.*)"` part of the pattern. -/
def beforeLastQuote : List Char → Option (List Char)
  | [] => none
  | c :: rest =>
    match beforeLastQuote rest with
    | some v => some (c :: v)
    | none => if c = '"' then some [] else none

/-- Match of `([a-zA-Z0-9_]+)="(.*)"` anchored at the head of the
character list: a non-empty maximal word-character run, then `="`,
then the greedy quoted value. -/
def matchKeyVal (cs : List Char) : Option (String × String) :=
  let key := cs.takeWhile isWordChar
  if key.isEmpty then none
  else
    match cs.drop key.length with
    | '=' :: '"' :: tail =>
      match beforeLastQuote tail with
      | some v => some (String.mk key, String.mk v)
      | none => none
    | _ => none

/-- Leftmost match of the pattern in the character list, trying each start
position left to right as `regexp.FindStringSubmatch` does. -/
def findKeyVal : List Char → Option (String × String)
  | [] => none
  | c :: rest =>
    match matchKeyVal (c :: rest) with
    | some r => some r
    | none => findKeyVal rest

/-- Submatch of `envRegex` on one scanned line, as key and quoted value. -/
def envLineMatch (line : String) : Option (String × String) :=
  findKeyVal line.toList

/-- One iteration of the `cmdTools.BuildCtx` scanner loop: a line with no
regex match is skipped; a match whose key is GOOS, GOARCH, GOPATH or
GOROOT sets the corresponding context field to the quoted value; any other
key leaves the context unchanged. -/
def applyEnvLine (ctx : Context) (line : String) : Context :=
  match envLineMatch line with
  | none => ctx
  | some (k, v) =>
    if k = "GOOS" then { ctx with GOOS := v }
    else if k = "GOARCH" then { ctx with GOARCH := v }
    else if k = "GOPATH" then { ctx with GOPATH := v }
    else if k = "GOROOT" then { ctx with GOROOT := v }
    else ctx

/-- The `cmdTools.BuildCtx` scanner loop over the subprocess's standard
output lines. -/
def buildCtxScan (ctx : Context) (lines : List String) : Context :=
  lines.foldl applyEnvLine ctx

/-- The whole of `cmdTools.BuildCtx` as a function of the default context,
the abstract subprocess error, the scanned lines and the abstract scanner
error: a subprocess failure returns the untouched context with that error,
otherwise the scanned context is returned with the scanner error if any. -/
def buildCtxRun (ctx0 : Context) (runErr : Option String) (lines : List String)
    (scanErr : Option String) : Context × Option String :=
  match runErr with
  | some e => (ctx0, some e)
  | none =>
    match scanErr with
    | some e => (buildCtxScan ctx0 lines, some e)
    | none => (buildCtxScan ctx0 lines, none)

/-- An environment-report value for a key on one line: the quoted value
when the regex matches the line with exactly that key, none otherwise. -/
def keyValOf (k : String) (line : String) : Option String :=
  match envLineMatch line with
  | some (k', v) => if k' = k then some v else none
  | none => none

/-- The value of the last line of the list that the regex matches with the
given key, or none when no line does. -/
def lastKeyVal (k : String) : List String → Option String
  | [] => none
  | l :: ls =>
    match lastKeyVal k ls with
    | some v => some v
    | none => keyValOf k l

/-- The full-coverage CompileArgs record of TestCompiler: every field
populated except GoVersion and InstallSuffix, which the test leaves at
their zero values. -/
def fullCompileTestArgs : CompileArgs :=
  { TrimPath := "tp", OutputFile := "of", BuildID := "buildid",
    DisableBoundsChecking := true, CompilingRuntimeLibrary := true,
    DisableOptimizations := true, RelativeImportPath := "rip",
    IncludeDirs := ["includeDirA", "includeDirB"], Concurrency := 5,
    AsmHeaderFile := "aho", Complete := true, DynamicLink := true,
    GoVersion := "", HaltOnError := true, ImportConfigFile := "icf",
    ImportMap := ["importMapA", "importMapB"], InstallSuffix := "",
    DisableInlining := true, LinkObjectOutputFile := "loof", MSan := true,
    NoLocalImports := true, PackageImportPath := "pip", Pack := true,
    Race := true, Shared := true, SmallFrames := true,
    CompilingStandardLibrary := true, SymABIsFile := "saf",
    Files := ["a", "b", "c"] }

/-- The exact token sequence TestCompiler asserts for
`fullCompileTestArgs` (before the env echo its stub subprocess adds). -/
def compileTestTokens : List String :=
  ["-trimpath", "tp", "-o", "of", "-buildid", "buildid", "-B", "-+", "-N",
   "-D", "rip", "-I", "includeDirA", "-I", "includeDirB", "-D", "5",
   "-asmhdr", "aho", "-complete", "-dynlink", "-h", "-importcfg", "icf",
   "-importmap", "importMapA", "-importmap", "importMapB", "-l",
   "-linkobj", "loof", "-msan", "-nolocalimports", "-p", "pip", "-pack",
   "-race", "-shared", "-smallframes", "-std", "-symabis", "saf",
   "a", "b", "c"]

/-- A CompileArgs record with every optional field populated, agreeing
with the given record on every field the latter populates: empty strings
become "x", false booleans become true, a zero Concurrency becomes 1,
lists and Files are kept. -/
def saturateCompile (r : CompileArgs) : CompileArgs :=
  { Files := r.Files
    TrimPath := if r.TrimPath = "" then "x" else r.TrimPath
    OutputFile := if r.OutputFile = "" then "x" else r.OutputFile
    BuildID := if r.BuildID = "" then "x" else r.BuildID
    DisableBoundsChecking := true
    CompilingRuntimeLibrary := true
    DisableOptimizations := true
    RelativeImportPath := if r.RelativeImportPath = "" then "x" else r.RelativeImportPath
    IncludeDirs := r.IncludeDirs
    Concurrency := if r.Concurrency = 0 then 1 else r.Concurrency
    AsmHeaderFile := if r.AsmHeaderFile = "" then "x" else r.AsmHeaderFile
    Complete := true
    DynamicLink := true
    GoVersion := if r.GoVersion = "" then "x" else r.GoVersion
    HaltOnError := true
    ImportConfigFile := if r.ImportConfigFile = "" then "x" else r.ImportConfigFile
    ImportMap := r.ImportMap
    InstallSuffix := if r.InstallSuffix = "" then "x" else r.InstallSuffix
    DisableInlining := true
    LinkObjectOutputFile := if r.LinkObjectOutputFile = "" then "x" else r.LinkObjectOutputFile
    MSan := true
    NoLocalImports := true
    PackageImportPath := if r.PackageImportPath = "" then "x" else r.PackageImportPath
    Pack := true
    Race := true
    Shared := true
    SmallFrames := true
    CompilingStandardLibrary := true
    SymABIsFile := if r.SymABIsFile = "" then "x" else r.SymABIsFile }

/-- An AssembleArgs record with every optional field populated, agreeing
with the given record on every field the latter populates: empty strings
become "x", false booleans become true, lists and Files are kept. -/
def saturateAssemble (r : AssembleArgs) : AssembleArgs :=
  { Files := r.Files
    TrimPath := if r.TrimPath = "" then "x" else r.TrimPath
    OutputFile := if r.OutputFile = "" then "x" else r.OutputFile
    IncludeDirs := r.IncludeDirs
    Defines := r.Defines
    GenSymABIs := true
    Shared := true
    DynamicLink := true }

/-- A LinkArgs record with every optional field populated, agreeing with
the given record on every field the latter populates: empty strings
become "x", false booleans become true, lists and Files are kept. -/
def saturateLink (r : LinkArgs) : LinkArgs :=
  { Files := r.Files
    EntrySymbolName := if r.EntrySymbolName = "" then "x" else r.EntrySymbolName
    HeaderType := if r.HeaderType = "" then "x" else r.HeaderType
    ELFDynamicLinker := if r.ELFDynamicLinker = "" then "x" else r.ELFDynamicLinker
    LibraryPaths := r.LibraryPaths
    StringDefines := r.StringDefines
    BuildID := if r.BuildID = "" then "x" else r.BuildID
    BuildMode := if r.BuildMode = "" then "x" else r.BuildMode
    ExternalTar := if r.ExternalTar = "" then "x" else r.ExternalTar
    ExternalLinker := if r.ExternalLinker = "" then "x" else r.ExternalLinker
    ExternalLinkerFlags := if r.ExternalLinkerFlags = "" then "x" else r.ExternalLinkerFlags
    IgnoreVersionMismatch := true
    DisableGoPackageDataChecks := true
    HaltOnError := true
    ImportConfigFile := if r.ImportConfigFile = "" then "x" else r.ImportConfigFile
    InstallSuffix := if r.InstallSuffix = "" then "x" else r.InstallSuffix
    FieldTrackingSymbol := if r.FieldTrackingSymbol = "" then "x" else r.FieldTrackingSymbol
    LibGCC := if r.LibGCC = "" then "x" else r.LibGCC
    LinkMode := if r.LinkMode = "" then "x" else r.LinkMode
    LinkShared := true
    MSan := true
    OutputFile := if r.OutputFile = "" then "x" else r.OutputFile
    PluginPath := if r.PluginPath = "" then "x" else r.PluginPath
    Race := true
    TempDir := if r.TempDir = "" then "x" else r.TempDir
    RejectUnsafePackages := true }

/-- A string-field chunk is a sublist of its saturated counterpart. -/
theorem strChunk_sublist (fl s : String) :
    (if s ≠ "" then [fl, s] else []).Sublist
      (if (if s = "" then "x" else s) ≠ "" then [fl, if s = "" then "x" else s] else []) := by
  by_cases h : s = "" <;> simp [h]

/-- A boolean-field chunk is a sublist of the saturated always-on chunk. -/
theorem boolChunk_sublist (b c : Bool) (l : List String) (h : c = true) :
    (if b then l else []).Sublist (if c then l else []) := by
  subst h; cases b <;> simp

/-- The integer-field chunk is a sublist of its saturated counterpart. -/
theorem intChunk_sublist (fl : String) (n : Int) :
    (if n ≠ 0 then [fl, toString n] else []).Sublist
      (if (if n = 0 then 1 else n) ≠ 0 then [fl, toString (if n = 0 then 1 else n)] else []) := by
  by_cases h : n = 0 <;> simp [h]

/-- The filtering loop of `cmdTools.env` keeps exactly the entries whose
prefix test fails, in order. -/
theorem envLoop_eq_filter (l : List String) :
    envLoop l = l.filter (fun v => !stripsCtxVar v) := by
  induction l with
  | nil => rfl
  | cons v rest ih =>
    by_cases h : stripsCtxVar v <;> simp [envLoop, h, ih]

/-- Scanning lines sets GOOS to the value of the last line the regex
matches with key GOOS, else leaves it. -/
theorem scan_field_GOOS (lines : List String) :
    ∀ ctx : Context, (buildCtxScan ctx lines).GOOS = (lastKeyVal "GOOS" lines).getD ctx.GOOS := by
  induction lines with
  | nil => intro ctx; rfl
  | cons l ls ih =>
    intro ctx
    show (buildCtxScan (applyEnvLine ctx l) ls).GOOS = _
    rw [ih]
    cases hrest : lastKeyVal "GOOS" ls with
    | some v => simp [lastKeyVal, hrest]
    | none =>
      simp only [lastKeyVal, hrest]
      cases hline : envLineMatch l with
      | none => simp [applyEnvLine, keyValOf, hline]
      | some kv =>
        obtain ⟨k, v⟩ := kv
        simp only [applyEnvLine, keyValOf, hline]
        split_ifs with h1 h2 h3 h4 <;> simp_all

/-- Scanning lines sets GOARCH to the value of the last line the regex
matches with key GOARCH, else leaves it. -/
theorem scan_field_GOARCH (lines : List String) :
    ∀ ctx : Context, (buildCtxScan ctx lines).GOARCH = (lastKeyVal "GOARCH" lines).getD ctx.GOARCH := by
  induction lines with
  | nil => intro ctx; rfl
  | cons l ls ih =>
    intro ctx
    show (buildCtxScan (applyEnvLine ctx l) ls).GOARCH = _
    rw [ih]
    cases hrest : lastKeyVal "GOARCH" ls with
    | some v => simp [lastKeyVal, hrest]
    | none =>
      simp only [lastKeyVal, hrest]
      cases hline : envLineMatch l with
      | none => simp [applyEnvLine, keyValOf, hline]
      | some kv =>
        obtain ⟨k, v⟩ := kv
        simp only [applyEnvLine, keyValOf, hline]
        split_ifs with h1 h2 h3 h4 <;> simp_all

/-- Scanning lines sets GOPATH to the value of the last line the regex
matches with key GOPATH, else leaves it. -/
theorem scan_field_GOPATH (lines : List String) :
    ∀ ctx : Context, (buildCtxScan ctx lines).GOPATH = (lastKeyVal "GOPATH" lines).getD ctx.GOPATH := by
  induction lines with
  | nil => intro ctx; rfl
  | cons l ls ih =>
    intro ctx
    show (buildCtxScan (applyEnvLine ctx l) ls).GOPATH = _
    rw [ih]
    cases hrest : lastKeyVal "GOPATH" ls with
    | some v => simp [lastKeyVal, hrest]
    | none =>
      simp only [lastKeyVal, hrest]
      cases hline : envLineMatch l with
      | none => simp [applyEnvLine, keyValOf, hline]
      | some kv =>
        obtain ⟨k, v⟩ := kv
        simp only [applyEnvLine, keyValOf, hline]
        split_ifs with h1 h2 h3 h4 <;> simp_all

/-- Scanning lines sets GOROOT to the value of the last line the regex
matches with key GOROOT, else leaves it. -/
theorem scan_field_GOROOT (lines : List String) :
    ∀ ctx : Context, (buildCtxScan ctx lines).GOROOT = (lastKeyVal "GOROOT" lines).getD ctx.GOROOT := by
  induction lines with
  | nil => intro ctx; rfl
  | cons l ls ih =>
    intro ctx
    show (buildCtxScan (applyEnvLine ctx l) ls).GOROOT = _
    rw [ih]
    cases hrest : lastKeyVal "GOROOT" ls with
    | some v => simp [lastKeyVal, hrest]
    | none =>
      simp only [lastKeyVal, hrest]
      cases hline : envLineMatch l with
      | none => simp [applyEnvLine, keyValOf, hline]
      | some kv =>
        obtain ⟨k, v⟩ := kv
        simp only [applyEnvLine, keyValOf, hline]
        split_ifs with h1 h2 h3 h4 <;> simp_all

/-- Scanning lines never touches the CgoEnabled field. -/
theorem scan_cgo (lines : List String) :
    ∀ ctx : Context, (buildCtxScan ctx lines).CgoEnabled = ctx.CgoEnabled := by
  induction lines with
  | nil => intro ctx; rfl
  | cons l ls ih =>
    intro ctx
    show (buildCtxScan (applyEnvLine ctx l) ls).CgoEnabled = _
    rw [ih]
    cases hline : envLineMatch l with
    | none => simp [applyEnvLine, hline]
    | some kv =>
      obtain ⟨k, v⟩ := kv
      simp only [applyEnvLine, hline]
      split_ifs <;> rfl

/-- The environment-report block TestBuildCtx feeds the scanner, with
well-formed, malformed and irrelevant lines interleaved. -/
def goEnvTestLines : List String :=
  ["GO111MODULE=\"\"",
   "GOARCH=\"amd64\"",
   "GOBIN=\"\"",
   "GOCACHE=\"/home/testuser/.cache/go-build\"",
   "GOENV=\"/home/testuser/.config/go/env\"",
   "GOEXE=\"\"",
   "GOFLAGS=\"\"",
   "GOHOSTARCH=\"amd64\"",
   "GOHOSTOS=\"linux\"",
   "GOINSECURE=\"\"",
   "GONOPROXY=\"\"",
   "GONOSUMDB=\"\"",
   "GOOS=\"linux\"",
   "GOPATH=\"/home/testuser/go\"",
   "GOPRIVATE=\"\"",
   "GOPROXY=\"https://proxy.golang.org,direct\"",
   "GOROOT=\"/usr/local/go1.14\"",
   "GOSUMDB=\"sum.golang.org\"",
   "GOTMPDIR=\"\"",
   "GOTOOLDIR=\"/usr/local/go/pkg/tool/linux_amd64\"",
   "GCCGO=\"gccgo\"",
   "AR=\"ar\"",
   "CC=\"gcc\"",
   "CXX=\"g++\"",
   "CGO_ENABLED=\"1\"",
   "GOMOD=\"/home/testuser/projects/build/go.mod\"",
   "CGO_CFLAGS=\"-g -O2\"",
   "CGO_CPPFLAGS=\"\"",
   "CGO_CXXFLAGS=\"-g -O2\"",
   "CGO_FFLAGS=\"-g -O2\"",
   "CGO_LDFLAGS=\"-g -O2\"",
   "PKG_CONFIG=\"pkg-config\"",
   "GOGCCFLAGS=\"-fPIC -m64 -pthread -fmessage-length=0 -fdebug-prefix-map=/tmp/go-build12345678=/tmp/go-build -gno-record-gcc-switches\""]

/-- Any Assemble record's token sequence is a sublist of the token
sequence of its saturation, chunk by chunk in the fixed declaration
order. -/
theorem assemble_sublist_saturate (ca : List String) (r : AssembleArgs) :
    (assembleCmdArgs ca r).Sublist (assembleCmdArgs ca (saturateAssemble r)) := by
  unfold assembleCmdArgs saturateAssemble
  refine List.Sublist.append ?_ (List.Sublist.refl _)
  refine List.Sublist.append ?_ (boolChunk_sublist _ _ _ rfl)
  refine List.Sublist.append ?_ (boolChunk_sublist _ _ _ rfl)
  refine List.Sublist.append ?_ (boolChunk_sublist _ _ _ rfl)
  refine List.Sublist.append ?_ (List.Sublist.refl _)
  refine List.Sublist.append ?_ (List.Sublist.refl _)
  refine List.Sublist.append ?_ (strChunk_sublist _ _)
  refine List.Sublist.append ?_ (strChunk_sublist _ _)
  exact List.Sublist.refl _

/-- Any Link record's token sequence is a sublist of the token sequence
of its saturation, chunk by chunk in the fixed declaration order. -/
theorem link_sublist_saturate (ca : List String) (r : LinkArgs) :
    (linkCmdArgs ca r).Sublist (linkCmdArgs ca (saturateLink r)) := by
  unfold linkCmdArgs saturateLink
  refine List.Sublist.append ?_ (List.Sublist.refl _)
  refine List.Sublist.append ?_ (boolChunk_sublist _ _ _ rfl)
  refine List.Sublist.append ?_ (strChunk_sublist _ _)
  refine List.Sublist.append ?_ (boolChunk_sublist _ _ _ rfl)
  refine List.Sublist.append ?_ (strChunk_sublist _ _)
  refine List.Sublist.append ?_ (strChunk_sublist _ _)
  refine List.Sublist.append ?_ (boolChunk_sublist _ _ _ rfl)
  refine List.Sublist.append ?_ (boolChunk_sublist _ _ _ rfl)
  refine List.Sublist.append ?_ (strChunk_sublist _ _)
  refine List.Sublist.append ?_ (strChunk_sublist _ _)
  refine List.Sublist.append ?_ (strChunk_sublist _ _)
  refine List.Sublist.append ?_ (strChunk_sublist _ _)
  refine List.Sublist.append ?_ (strChunk_sublist _ _)
  refine List.Sublist.append ?_ (boolChunk_sublist _ _ _ rfl)
  refine List.Sublist.append ?_ (boolChunk_sublist _ _ _ rfl)
  refine List.Sublist.append ?_ (boolChunk_sublist _ _ _ rfl)
  refine List.Sublist.append ?_ (strChunk_sublist _ _)
  refine List.Sublist.append ?_ (strChunk_sublist _ _)
  refine List.Sublist.append ?_ (strChunk_sublist _ _)
  refine List.Sublist.append ?_ (strChunk_sublist _ _)
  refine List.Sublist.append ?_ (strChunk_sublist _ _)
  refine List.Sublist.append ?_ (List.Sublist.refl _)
  refine List.Sublist.append ?_ (List.Sublist.refl _)
  refine List.Sublist.append ?_ (strChunk_sublist _ _)
  refine List.Sublist.append ?_ (strChunk_sublist _ _)
  refine List.Sublist.append ?_ (strChunk_sublist _ _)
  exact List.Sublist.refl _

/-- Any Compile record's token sequence is a sublist of the token
sequence of its saturation, chunk by chunk in the fixed declaration
order. -/
theorem compile_sublist_saturate (ca : List String) (r : CompileArgs) :
    (compileCmdArgs ca r).Sublist (compileCmdArgs ca (saturateCompile r)) := by
  unfold compileCmdArgs saturateCompile
  refine List.Sublist.append ?_ (List.Sublist.refl _)
  refine List.Sublist.append ?_ (strChunk_sublist _ _)
  refine List.Sublist.append ?_ (boolChunk_sublist _ _ _ rfl)
  refine List.Sublist.append ?_ (boolChunk_sublist _ _ _ rfl)
  refine List.Sublist.append ?_ (boolChunk_sublist _ _ _ rfl)
  refine List.Sublist.append ?_ (boolChunk_sublist _ _ _ rfl)
  refine List.Sublist.append ?_ (boolChunk_sublist _ _ _ rfl)
  refine List.Sublist.append ?_ (strChunk_sublist _ _)
  refine List.Sublist.append ?_ (boolChunk_sublist _ _ _ rfl)
  refine List.Sublist.append ?_ (boolChunk_sublist _ _ _ rfl)
  refine List.Sublist.append ?_ (strChunk_sublist _ _)
  refine List.Sublist.append ?_ (boolChunk_sublist _ _ _ rfl)
  refine List.Sublist.append ?_ (strChunk_sublist _ _)
  refine List.Sublist.append ?_ (List.Sublist.refl _)
  refine List.Sublist.append ?_ (strChunk_sublist _ _)
  refine List.Sublist.append ?_ (boolChunk_sublist _ _ _ rfl)
  refine List.Sublist.append ?_ (strChunk_sublist _ _)
  refine List.Sublist.append ?_ (boolChunk_sublist _ _ _ rfl)
  refine List.Sublist.append ?_ (boolChunk_sublist _ _ _ rfl)
  refine List.Sublist.append ?_ (strChunk_sublist _ _)
  refine List.Sublist.append ?_ (intChunk_sublist _ _)
  refine List.Sublist.append ?_ (List.Sublist.refl _)
  refine List.Sublist.append ?_ (strChunk_sublist _ _)
  refine List.Sublist.append ?_ (boolChunk_sublist _ _ _ rfl)
  refine List.Sublist.append ?_ (boolChunk_sublist _ _ _ rfl)
  refine List.Sublist.append ?_ (boolChunk_sublist _ _ _ rfl)
  refine List.Sublist.append ?_ (strChunk_sublist _ _)
  refine List.Sublist.append ?_ (strChunk_sublist _ _)
  refine List.Sublist.append ?_ (strChunk_sublist _ _)
  exact List.Sublist.refl _

/-- Claim C1: for every Assemble, Compile or Link arguments record in
which every optional field holds its zero value, the serialized token
sequence holds no flag tokens: it is the configured fixed leading
arguments followed only by the positional file list, which is itself
empty when no files are supplied. -/
theorem zero_value_args_emit_no_flags (ca files : List String) :
    assembleCmdArgs ca { Files := files } = ca ++ files ∧
    compileCmdArgs ca { Files := files } = ca ++ files ∧
    linkCmdArgs ca { Files := files } = ca ++ files ∧
    assembleCmdArgs ca {} = ca ∧
    compileCmdArgs ca {} = ca ∧
    linkCmdArgs ca {} = ca := by
  refine ⟨?_, ?_, ?_, ?_, ?_, ?_⟩ <;>
    simp [assembleCmdArgs, compileCmdArgs, linkCmdArgs, repFlag]

/-- Claim C2: Assemble with TrimPath "tp", OutputFile "of", IncludeDirs
DirA DirB, Defines A B, GenSymABIs, Shared, DynamicLink all true, Files
a b c and empty fixed leading arguments produces exactly the token
sequence -trimpath tp -o of -I DirA -I DirB -D A -D B -gensymabis
-shared -dynlink a b c. -/
theorem assemble_example_tokens :
    assembleCmdArgs []
      { TrimPath := "tp", OutputFile := "of", IncludeDirs := ["DirA", "DirB"],
        Defines := ["A", "B"], GenSymABIs := true, Shared := true,
        DynamicLink := true, Files := ["a", "b", "c"] } =
      ["-trimpath", "tp", "-o", "of", "-I", "DirA", "-I", "DirB", "-D", "A",
       "-D", "B", "-gensymabis", "-shared", "-dynlink", "a", "b", "c"] := by
  decide

/-- Claim C3: Pack maps each of the five defined operation kinds to its
single-letter token followed by the object file and then the names in
order; any other operation value yields the error carrying the invalid
value in decimal, as the early return taken before any subprocess is
spawned or anything is written to the caller's Stdout sink, and in
particular the zero value yields the error unknown pack operation 0. -/
theorem pack_op_mapping (pa : List String) (args : PackArgs) :
    (args.Op = PackOp.AppendNew →
      packCmdArgs pa args = Except.ok (pa ++ ["c", args.ObjectFile] ++ args.Names)) ∧
    (args.Op = PackOp.Print →
      packCmdArgs pa args = Except.ok (pa ++ ["p", args.ObjectFile] ++ args.Names)) ∧
    (args.Op = PackOp.Append →
      packCmdArgs pa args = Except.ok (pa ++ ["r", args.ObjectFile] ++ args.Names)) ∧
    (args.Op = PackOp.List →
      packCmdArgs pa args = Except.ok (pa ++ ["t", args.ObjectFile] ++ args.Names)) ∧
    (args.Op = PackOp.Extract →
      packCmdArgs pa args = Except.ok (pa ++ ["x", args.ObjectFile] ++ args.Names)) ∧
    (args.Op ∉ ([PackOp.AppendNew, PackOp.Print, PackOp.Append, PackOp.List,
        PackOp.Extract] : List PackOp) →
      packCmdArgs pa args = Except.error ("unknown pack operation " ++ toString args.Op)) ∧
    packCmdArgs [] { Op := 0, ObjectFile := "obj", Names := ["a"] } =
      Except.error "unknown pack operation 0" := by
  refine ⟨?_, ?_, ?_, ?_, ?_, ?_, rfl⟩ <;> intro h
  · simp [packCmdArgs, h, PackOp.AppendNew]
  · simp [packCmdArgs, h, PackOp.AppendNew, PackOp.Print]
  · simp [packCmdArgs, h, PackOp.AppendNew, PackOp.Print, PackOp.Append]
  · simp [packCmdArgs, h, PackOp.AppendNew, PackOp.Print, PackOp.Append, PackOp.List]
  · simp [packCmdArgs, h, PackOp.AppendNew, PackOp.Print, PackOp.Append, PackOp.List,
      PackOp.Extract]
  · simp only [List.mem_cons, List.mem_singleton, not_or] at h
    simp [packCmdArgs, h.1, h.2.1, h.2.2.1, h.2.2.2.1, h.2.2.2.2]

/-- Witness for pack_op_mapping: each defined operation kind and one
undefined kind evaluated at concrete arguments. -/
theorem pack_op_mapping_witness :
    packCmdArgs [] { Op := PackOp.AppendNew, ObjectFile := "obj", Names := ["a"] } =
      Except.ok ([] ++ ["c", "obj"] ++ ["a"]) ∧
    packCmdArgs [] { Op := PackOp.Print, ObjectFile := "obj", Names := ["a"] } =
      Except.ok ([] ++ ["p", "obj"] ++ ["a"]) ∧
    packCmdArgs [] { Op := PackOp.Append, ObjectFile := "obj", Names := ["a"] } =
      Except.ok ([] ++ ["r", "obj"] ++ ["a"]) ∧
    packCmdArgs [] { Op := PackOp.List, ObjectFile := "obj", Names := ["a"] } =
      Except.ok ([] ++ ["t", "obj"] ++ ["a"]) ∧
    packCmdArgs [] { Op := PackOp.Extract, ObjectFile := "obj", Names := ["a"] } =
      Except.ok ([] ++ ["x", "obj"] ++ ["a"]) ∧
    packCmdArgs [] { Op := 9, ObjectFile := "obj", Names := ["a"] } =
      Except.error ("unknown pack operation " ++ toString (9 : Int)) :=
  ⟨(pack_op_mapping [] _).1 rfl,
   (pack_op_mapping [] _).2.1 rfl,
   (pack_op_mapping [] _).2.2.1 rfl,
   (pack_op_mapping [] _).2.2.2.1 rfl,
   (pack_op_mapping [] _).2.2.2.2.1 rfl,
   (pack_op_mapping [] _).2.2.2.2.2.1 (by decide)⟩

/-- Counterexample to claim C4 as stated: with every Compile field
populated, including GoVersion and InstallSuffix which TestCompiler
leaves empty, the token sequence is not the known-correct literal the
test asserts, because -goversion and -installsuffix tokens appear. -/
theorem compile_all_fields_literal_counterexample :
    compileCmdArgs []
      { fullCompileTestArgs with GoVersion := "gv", InstallSuffix := "is" } ≠
      compileTestTokens := by
  decide

/-- Claim C4 amended: for every record of each tool — Assemble, Compile
and Link — the token sequence is a sublist of the sequence of the
record's saturation (the record with every field populated, agreeing on
the populated fields), so flags always appear in the one fixed per-tool
declaration order; and the test's Compile record, which populates every
field except GoVersion and InstallSuffix, produces exactly the literal
token sequence the tests assert. -/
theorem flag_order_fixed_per_tool :
    (∀ (ca : List String) (r : AssembleArgs),
      (assembleCmdArgs ca r).Sublist (assembleCmdArgs ca (saturateAssemble r))) ∧
    (∀ (ca : List String) (r : CompileArgs),
      (compileCmdArgs ca r).Sublist (compileCmdArgs ca (saturateCompile r))) ∧
    (∀ (ca : List String) (r : LinkArgs),
      (linkCmdArgs ca r).Sublist (linkCmdArgs ca (saturateLink r))) ∧
    compileCmdArgs [] fullCompileTestArgs = compileTestTokens :=
  ⟨assemble_sublist_saturate, compile_sublist_saturate, link_sublist_saturate, by decide⟩

/-- Claim C5: the Concurrency integer contributes tokens exactly in its
declaration slot and only when non-zero, namely the flag token -D
followed by the decimal rendering, the literal token also used for the
RelativeImportPath string field. -/
theorem compile_concurrency_flag :
    (∀ (ca : List String) (args : CompileArgs),
      compileCmdArgs ca args =
        compileCmdArgs ca
          { args with
            Concurrency := 0, AsmHeaderFile := "", Complete := false,
            DynamicLink := false, GoVersion := "", HaltOnError := false,
            ImportConfigFile := "", ImportMap := [], InstallSuffix := "",
            DisableInlining := false, LinkObjectOutputFile := "", MSan := false,
            NoLocalImports := false, PackageImportPath := "", Pack := false,
            Race := false, Shared := false, SmallFrames := false,
            CompilingStandardLibrary := false, SymABIsFile := "", Files := [] }
        ++ (if args.Concurrency = 0 then [] else ["-D", toString args.Concurrency])
        ++ compileCmdArgs []
          { args with
            TrimPath := "", OutputFile := "", BuildID := "",
            DisableBoundsChecking := false, CompilingRuntimeLibrary := false,
            DisableOptimizations := false, RelativeImportPath := "",
            IncludeDirs := [], Concurrency := 0 }) ∧
    (∀ n : Int, n ≠ 0 → compileCmdArgs [] { Concurrency := n } = ["-D", toString n]) ∧
    compileCmdArgs [] { Concurrency := 0 } = [] ∧
    (∀ s : String, s ≠ "" → compileCmdArgs [] { RelativeImportPath := s } = ["-D", s]) := by
  refine ⟨?_, ?_, by decide, ?_⟩
  · intro ca args
    by_cases h : args.Concurrency = 0 <;>
      simp [compileCmdArgs, h, repFlag, List.append_assoc]
  · intro n h
    simp [compileCmdArgs, h, repFlag]
  · intro s h
    simp [compileCmdArgs, h, repFlag]

/-- Witness for compile_concurrency_flag at Concurrency 5 and
RelativeImportPath rip. -/
theorem compile_concurrency_flag_witness :
    compileCmdArgs [] { Concurrency := (5 : Int) } = ["-D", toString (5 : Int)] ∧
    compileCmdArgs [] { RelativeImportPath := "rip" } = ["-D", "rip"] ∧
    compileCmdArgs ["p"] { Concurrency := (5 : Int) } =
      compileCmdArgs ["p"]
        { ({ Concurrency := (5 : Int) } : CompileArgs) with
          Concurrency := 0, AsmHeaderFile := "", Complete := false,
          DynamicLink := false, GoVersion := "", HaltOnError := false,
          ImportConfigFile := "", ImportMap := [], InstallSuffix := "",
          DisableInlining := false, LinkObjectOutputFile := "", MSan := false,
          NoLocalImports := false, PackageImportPath := "", Pack := false,
          Race := false, Shared := false, SmallFrames := false,
          CompilingStandardLibrary := false, SymABIsFile := "", Files := [] }
      ++ (if (5 : Int) = 0 then [] else ["-D", toString (5 : Int)])
      ++ compileCmdArgs []
        { ({ Concurrency := (5 : Int) } : CompileArgs) with
          TrimPath := "", OutputFile := "", BuildID := "",
          DisableBoundsChecking := false, CompilingRuntimeLibrary := false,
          DisableOptimizations := false, RelativeImportPath := "",
          IncludeDirs := [], Concurrency := 0 } :=
  ⟨compile_concurrency_flag.2.1 5 (by decide),
   compile_concurrency_flag.2.2.2 "rip" (by decide),
   compile_concurrency_flag.1 ["p"] { Concurrency := (5 : Int) }⟩

/-- Counterexample to claim C6 as stated: a first Version call whose
subprocess succeeds with all-whitespace output stores the empty trimmed
string, and the next call spawns a subprocess again, against the claim
that every call after the first successful one returns the cached string
without spawning. -/
theorem version_memo_counterexample :
    (versionCall "" { stdout := " " }).ret = Except.ok "" ∧
    (versionCall "" { stdout := " " }).spawned = true ∧
    (versionCall (versionCall "" { stdout := " " }).version { stdout := " " }).spawned = true :=
  ⟨rfl, rfl, rfl⟩

/-- Claim C6 amended: on the success path Version spawns the subprocess
at most once provided the trimmed output of the successful call is
non-empty: that call stores the trimmed standard output in the memo
field, and every later call, serialized by the mutex, returns the cached
string without spawning; a non-empty memo is always returned as-is with
no subprocess. -/
theorem version_memoization :
    (∀ (memo : String) (o : ExecOutcome), memo ≠ "" →
      versionCall memo o = ⟨Except.ok memo, memo, false, ""⟩) ∧
    (∀ o o' : ExecOutcome, o.err = none → trimSpace o.stdout ≠ "" →
      (versionCall "" o).ret = Except.ok (trimSpace o.stdout) ∧
      (versionCall "" o).version = trimSpace o.stdout ∧
      (versionCall (versionCall "" o).version o').ret = Except.ok (trimSpace o.stdout) ∧
      (versionCall (versionCall "" o).version o').spawned = false) := by
  constructor
  · intro memo o h
    simp [versionCall, h]
  · intro o o' h h2
    simp [versionCall, h, h2]

/-- Witness for version_memoization on a concrete successful outcome. -/
theorem version_memoization_witness :
    versionCall "go version go99.99.99 linux/amd64" { stdout := "x" } =
      ⟨Except.ok "go version go99.99.99 linux/amd64",
       "go version go99.99.99 linux/amd64", false, ""⟩ ∧
    (versionCall "" { stdout := " go version go99.99.99 linux/amd64\n" }).version =
      trimSpace " go version go99.99.99 linux/amd64\n" ∧
    (versionCall
      (versionCall "" { stdout := " go version go99.99.99 linux/amd64\n" }).version
      { stdout := "other" }).spawned = false :=
  ⟨version_memoization.1 "go version go99.99.99 linux/amd64" { stdout := "x" } (by decide),
   (version_memoization.2 { stdout := " go version go99.99.99 linux/amd64\n" }
     { stdout := "other" } rfl (by decide)).2.1,
   (version_memoization.2 { stdout := " go version go99.99.99 linux/amd64\n" }
     { stdout := "other" } rfl (by decide)).2.2.2⟩

/-- Claim C7: when the Version subprocess fails, the call returns the
subprocess error unmodified with the empty-string result, forwards the
subprocess's standard error, and leaves the memo field unchanged at the
empty string, so a later successful call still populates the cache with
its trimmed output. -/
theorem version_failure_behavior (o o' : ExecOutcome) (e : String) (h : o.err = some e) :
    (versionCall "" o).ret = Except.error e ∧
    (versionCall "" o).version = "" ∧
    (versionCall "" o).stderrForwarded = o.stderr ∧
    (versionCall "" o).spawned = true ∧
    (o'.err = none →
      (versionCall (versionCall "" o).version o').version = trimSpace o'.stdout) := by
  refine ⟨?_, ?_, ?_, ?_, ?_⟩ <;> simp [versionCall, h]
  intro h2
  simp [versionCall, h2]

/-- Witness for version_failure_behavior on a concrete failing outcome
followed by a successful one. -/
theorem version_failure_behavior_witness :
    (versionCall "" { err := some "exit status 1", stderr := "boom" }).ret =
      Except.error "exit status 1" ∧
    (versionCall "" { err := some "exit status 1", stderr := "boom" }).version = "" ∧
    (versionCall "" { err := some "exit status 1", stderr := "boom" }).stderrForwarded =
      ({ err := some "exit status 1", stderr := "boom" } : ExecOutcome).stderr ∧
    (versionCall "" { err := some "exit status 1", stderr := "boom" }).spawned = true ∧
    (({ stdout := "go version go99.99.99 linux/amd64" } : ExecOutcome).err = none →
      (versionCall (versionCall "" { err := some "exit status 1", stderr := "boom" }).version
        { stdout := "go version go99.99.99 linux/amd64" }).version =
        trimSpace ({ stdout := "go version go99.99.99 linux/amd64" } : ExecOutcome).stdout) :=
  version_failure_behavior { err := some "exit status 1", stderr := "boom" }
    { stdout := "go version go99.99.99 linux/amd64" } "exit status 1" rfl

/-- Counterexample to claim C8 as stated: GOOSE is not one of the five
build-context variables, yet the inherited entry GOOSE=duck does not pass
through the overlay unchanged, because the code strips by string prefix
and GOOSE begins with GOOS. -/
theorem env_passthrough_counterexample :
    ("GOOSE" ∉ ["GOARCH", "GOOS", "GOROOT", "GOPATH", "CGO_ENABLED"]) ∧
    "GOOSE=duck" ∉ envFor {} ["GOOSE=duck"] := by
  decide

/-- Claim C8 amended: the overlay removes from the inherited environment
exactly the entries whose text begins with one of GOARCH, GOOS, GOROOT,
GOPATH, CGO_ENABLED, hence also entries of other variables having one of
those names as a prefix; it appends the Build Context values for exactly
the five variables, CGO_ENABLED rendered from the boolean as 1 or 0, and
every other inherited entry passes through unchanged in order. -/
theorem env_overlay_characterization (ctx : Context) (cur : List String) :
    envFor ctx cur = cur.filter (fun v => !stripsCtxVar v)
      ++ ["GOARCH=" ++ ctx.GOARCH, "GOOS=" ++ ctx.GOOS, "GOROOT=" ++ ctx.GOROOT,
          "GOPATH=" ++ ctx.GOPATH,
          if ctx.CgoEnabled then "CGO_ENABLED=1" else "CGO_ENABLED=0"] ∧
    (∀ v, v ∈ envFor ctx cur ↔
      ((v ∈ cur ∧ stripsCtxVar v = false) ∨
        v ∈ ["GOARCH=" ++ ctx.GOARCH, "GOOS=" ++ ctx.GOOS, "GOROOT=" ++ ctx.GOROOT,
             "GOPATH=" ++ ctx.GOPATH,
             if ctx.CgoEnabled then "CGO_ENABLED=1" else "CGO_ENABLED=0"])) := by
  constructor
  · simp [envFor, envLoop_eq_filter]
  · intro v
    simp [envFor, envLoop_eq_filter, List.mem_filter, or_assoc]

/-- Claim C9: BuildCtx surfaces a subprocess error unmodified with the
untouched default context; on success it scans line by line, skipping
every line the regex does not match, setting each of the four fields
GOOS, GOARCH, GOPATH, GOROOT to the quoted value of the last line
matching with that key while every other context field keeps its default,
the only other surfaced failure being the scanner error; on the
TestBuildCtx block the scan extracts exactly the four test values. -/
theorem buildctx_scan_spec :
    (∀ (ctx0 : Context) (e : String) (lines : List String) (se : Option String),
      buildCtxRun ctx0 (some e) lines se = (ctx0, some e)) ∧
    (∀ (ctx0 : Context) (lines : List String),
      buildCtxRun ctx0 none lines none = (buildCtxScan ctx0 lines, none)) ∧
    (∀ (ctx0 : Context) (lines : List String) (e : String),
      buildCtxRun ctx0 none lines (some e) = (buildCtxScan ctx0 lines, some e)) ∧
    (∀ (ctx : Context) (line : String), envLineMatch line = none →
      applyEnvLine ctx line = ctx) ∧
    (∀ (ctx : Context) (lines : List String),
      (buildCtxScan ctx lines).GOOS = (lastKeyVal "GOOS" lines).getD ctx.GOOS ∧
      (buildCtxScan ctx lines).GOARCH = (lastKeyVal "GOARCH" lines).getD ctx.GOARCH ∧
      (buildCtxScan ctx lines).GOPATH = (lastKeyVal "GOPATH" lines).getD ctx.GOPATH ∧
      (buildCtxScan ctx lines).GOROOT = (lastKeyVal "GOROOT" lines).getD ctx.GOROOT ∧
      (buildCtxScan ctx lines).CgoEnabled = ctx.CgoEnabled) ∧
    buildCtxScan {} goEnvTestLines =
      { GOOS := "linux", GOARCH := "amd64", GOPATH := "/home/testuser/go",
        GOROOT := "/usr/local/go1.14", CgoEnabled := false } := by
  refine ⟨fun _ _ _ _ => rfl, fun _ _ => rfl, fun _ _ _ => rfl, ?_, ?_, by decide⟩
  · intro ctx line h
    simp [applyEnvLine, h]
  · intro ctx lines
    exact ⟨scan_field_GOOS lines ctx, scan_field_GOARCH lines ctx,
      scan_field_GOPATH lines ctx, scan_field_GOROOT lines ctx, scan_cgo lines ctx⟩

/-- Witness for buildctx_scan_spec: a malformed line is skipped. -/
theorem buildctx_scan_spec_witness :
    applyEnvLine {} "malformed line" = {} :=
  buildctx_scan_spec.2.2.2.1 {} "malformed line" (by decide)

/-- Claim C10: Pack and BuildID append the ObjectFile field as a
positional token unconditionally: with an empty ObjectFile an
empty-string token is placed after the operation letter for Pack and
after the optional -w flag for BuildID, and in general BuildID's token
sequence always ends with the ObjectFile token. -/
theorem objectfile_always_appended (pa names : List String) (w : Bool)
    (args : BuildIDArgs) :
    packCmdArgs pa { Op := PackOp.Append, ObjectFile := "", Names := names } =
      Except.ok (pa ++ ["r", ""] ++ names) ∧
    buildIDCmdArgs pa { ObjectFile := "", Write := w } =
      pa ++ (if w then ["-w"] else []) ++ [""] ∧
    buildIDCmdArgs pa args =
      pa ++ (if args.Write then ["-w"] else []) ++ [args.ObjectFile] := by
  refine ⟨rfl, rfl, rfl⟩
